import Mathlib

/-!
# GearGuard maintenance-request workflow: a shallow embedding

This file embeds the core of the GearGuard maintenance-management
application (backend `requestController.js` / `equipmentController.js`,
the Mongoose schemas, and the frontend Kanban / request-form logic) as
executable Lean definitions, and proves properties of the embedded
operations.

Conventions of the embedding:
* Mongo ObjectIds become `Nat`; nullable references become `Option Nat`.
* Dates become `Option Nat` (an abstract day number); no claim below
  depends on date arithmetic.
* Each HTTP handler becomes a total function from the database state and
  its inputs to a result that carries the database state after the call,
  so that "no write happened" is the statement that the carried state
  equals the input state.
* A `throw` inside an `await`ed Mongo call is modelled, where a claim
  depends on it, by an explicit Boolean oracle passed to the handler
  (`deactivateFails` below): `true` means the call raised, landing the
  handler in its `catch` block with no write applied.
-/

namespace GearGuard

/-- User roles, `role` strings `'Admin' | 'Manager' | 'Technician' | 'User'`
in the source. -/
inductive Role where
  | Admin
  | Manager
  | Technician
  | User
deriving DecidableEq, Repr

/-- Request stages, schema enum `['New', 'In Progress', 'Repaired', 'Scrap']`. -/
inductive Stage where
  | New
  | InProgress
  | Repaired
  | Scrap
deriving DecidableEq, Repr, Fintype

/-- Schema enum `['Corrective', 'Preventive']`. -/
inductive RequestType where
  | Corrective
  | Preventive
deriving DecidableEq, Repr

/-- Schema enum `['Low', 'Medium', 'High', 'Urgent']`. -/
inductive Priority where
  | Low
  | Medium
  | High
  | Urgent
deriving DecidableEq, Repr

/-- `Equipment` document (fields of `Equipment.js` that the request
workflow reads; ownership/warranty fields are not consulted by any
embedded operation and are omitted). -/
structure Equipment where
  id : Nat
  equipmentName : String
  category : String
  maintenanceTeam : Nat
  defaultTechnician : Nat
  isActive : Bool
deriving DecidableEq, Repr

/-- `MaintenanceRequest` document (`MaintenanceRequest.js`). -/
structure Request where
  id : Nat
  subject : String
  equipment : Nat
  equipmentCategory : String
  maintenanceTeam : Option Nat
  requestType : RequestType
  stage : Stage
  priority : Priority
  scheduledDate : Option Nat
  assignedTechnician : Option Nat
  durationHours : Nat
  description : String
  resolutionNotes : String
  createdBy : Nat
deriving DecidableEq, Repr

/-- The authenticated user placed on `req.user` by the auth middleware. -/
structure Actor where
  id : Nat
  role : Role
  team : Option Nat
deriving DecidableEq, Repr

/-- The persistent store: the two collections the request workflow
touches. -/
structure DB where
  equipments : List Equipment
  requests : List Request
deriving DecidableEq, Repr

/-- `Equipment.findById`. -/
def findEquipment (db : DB) (eid : Nat) : Option Equipment :=
  db.equipments.find? (fun e => e.id == eid)

/-- `MaintenanceRequest.findById`. -/
def findRequest (db : DB) (rid : Nat) : Option Request :=
  db.requests.find? (fun r => r.id == rid)

/-- `Equipment.findByIdAndUpdate(eid, { isActive: false })`. -/
def deactivateEquipment (db : DB) (eid : Nat) : DB :=
  { db with
    equipments :=
      db.equipments.map (fun e => if e.id == eid then { e with isActive := false } else e) }

/-- `request.save()`: persist the (modified) document back into its
collection, replacing the stored document with the same id. -/
def saveRequest (db : DB) (r : Request) : DB :=
  { db with requests := db.requests.map (fun x => if x.id == r.id then r else x) }

/-- Whitespace trimming (the `trim: true` setter of the schemas and
`String.prototype.trim` of the form code), written on the character list
so that it evaluates by kernel reduction. -/
def trimString (s : String) : String :=
  { data := ((s.data.dropWhile Char.isWhitespace).reverse.dropWhile
      Char.isWhitespace).reverse }

/-- Mongoose document validation run by `save` / `create`: `subject` is a
required, trimmed string (empty after trim fails `required`); the enum
and `min: 0` constraints hold by construction of the Lean types. -/
def validRequest (r : Request) : Bool :=
  trimString r.subject ≠ ""

/-! ## Stage transition validator (frontend Kanban, `isValidTransition`) -/

/-- The `validTransitions` lookup object; an absent key (`Scrap`) reads as
`undefined`, i.e. no permitted targets. -/
def validTransitionsFrom : Stage → List Stage
  | Stage.New => [Stage.InProgress]
  | Stage.InProgress => [Stage.Repaired]
  | Stage.Repaired => []
  | Stage.Scrap => []

/-- `isValidTransition(fromStage, toStage)` of the Kanban board: nothing
leaves `Scrap`; anything non-`Scrap` may move to `Scrap`; otherwise the
`validTransitions` table decides. -/
def isValidTransition (s t : Stage) : Bool :=
  if s = Stage.Scrap then false
  else if t = Stage.Scrap then true
  else (validTransitionsFrom s).contains t

/-! ## Backend request controller (`requestController.js`) -/

/-- Outcome of a mutating handler; every constructor carries the database
state after the call returned. -/
inductive ApiResult where
  | badRequest (db : DB)
  | notFound (db : DB)
  | forbidden (db : DB)
  | serverError (db : DB)
  | ok (db : DB) (updated : Request)
deriving DecidableEq, Repr

/-- The permission check shared by `updateRequest` and
`updateRequestStage`:
`['Admin', 'Manager'].includes(req.user.role) || isAssignedTechnician`. -/
def canUpdate (r : Request) (a : Actor) : Bool :=
  a.role = Role.Admin ∨ a.role = Role.Manager ∨ r.assignedTechnician = some a.id

/-- `updateRequestStage` (PATCH `/api/requests/:id/stage`). `newStage =
none` models a missing/falsy `stage` in the body. `deactivateFails = true`
models the `Equipment.findByIdAndUpdate` promise rejecting, which jumps to
the handler's `catch` (500) before `request.stage` is written. No
transition check appears in this handler. -/
def updateRequestStage (db : DB) (rid : Nat) (newStage : Option Stage) (actor : Actor)
    (deactivateFails : Bool) : ApiResult :=
  match newStage with
  | none => ApiResult.badRequest db
  | some stage =>
    match findRequest db rid with
    | none => ApiResult.notFound db
    | some request =>
      if canUpdate request actor then
        if stage = Stage.Scrap then
          if deactivateFails then ApiResult.serverError db
          else
            let updated := { request with stage := stage }
            ApiResult.ok (saveRequest (deactivateEquipment db request.equipment) updated) updated
        else
          let updated := { request with stage := stage }
          ApiResult.ok (saveRequest db updated) updated
      else ApiResult.forbidden db

/-- Request body of POST `/api/requests` after destructuring
`const { equipment: equipmentId, ...requestData } = req.body`; `none`
fields are absent from the body and take the schema defaults. -/
structure CreateBody where
  subject : String
  equipment : Nat
  requestType : RequestType
  priority : Option Priority
  stage : Option Stage
  scheduledDate : Option Nat
  assignedTechnician : Option Nat
  description : Option String
deriving DecidableEq, Repr

/-- The document handed to `MaintenanceRequest.create`: the body spread
first, then the auto-filled snapshot / actor fields, which therefore win
over anything the body supplied for them. -/
def builtRequest (body : CreateBody) (equipment : Equipment) (actor : Actor)
    (newId : Nat) : Request :=
  { id := newId
    subject := body.subject
    equipment := body.equipment
    equipmentCategory := equipment.category
    maintenanceTeam := some equipment.maintenanceTeam
    requestType := body.requestType
    stage := body.stage.getD Stage.New
    priority := body.priority.getD Priority.Medium
    scheduledDate := body.scheduledDate
    assignedTechnician := some (body.assignedTechnician.getD equipment.defaultTechnician)
    durationHours := 0
    description := body.description.getD ""
    resolutionNotes := ""
    createdBy := actor.id }

/-- `createRequest` (POST `/api/requests`): equipment must exist (404) and
be active (400, the inactive/scrapped message — the spec's
`InactiveEquipment` error kind); on success the auto-filled document is
inserted; `newId` is the id Mongo assigns. A `MaintenanceRequest.create`
validation failure lands in the `catch` (500) with nothing inserted. -/
def createRequest (db : DB) (body : CreateBody) (actor : Actor) (newId : Nat) : ApiResult :=
  match findEquipment db body.equipment with
  | none => ApiResult.notFound db
  | some equipment =>
    if equipment.isActive then
      let r := builtRequest body equipment actor newId
      if validRequest r then ApiResult.ok { db with requests := db.requests ++ [r] } r
      else ApiResult.serverError db
    else ApiResult.badRequest db

/-- Query-string filters of GET `/api/requests`. -/
structure Query where
  stage : Option Stage
  priority : Option Priority
  requestType : Option RequestType
  equipmentId : Option Nat
  technicianId : Option Nat
deriving DecidableEq, Repr

/-- The query with every filter absent. -/
def emptyQuery : Query :=
  { stage := none, priority := none, requestType := none,
    equipmentId := none, technicianId := none }

/-- The role-based part of the Mongo filter built by `getAllRequests`:
`User` sees own, `Technician` sees assigned-or-team (`$or`), Admin and
Manager see everything. -/
def roleFilter (a : Actor) (r : Request) : Bool :=
  match a.role with
  | Role.User => r.createdBy = a.id
  | Role.Technician => r.assignedTechnician = some a.id ∨ r.maintenanceTeam = a.team
  | Role.Admin => true
  | Role.Manager => true

/-- The additional query-string filters (`if (stage) filter.stage = stage`
etc.). -/
def queryFilter (q : Query) (r : Request) : Bool :=
  (match q.stage with | none => true | some s => r.stage = s) &&
  (match q.priority with | none => true | some p => r.priority = p) &&
  (match q.requestType with | none => true | some t => r.requestType = t) &&
  (match q.equipmentId with | none => true | some e => r.equipment = e) &&
  (match q.technicianId with | none => true | some t => r.assignedTechnician = some t)

/-- `getAllRequests` (GET `/api/requests`): the set of documents matching
the role filter and the query filters (the handler also sorts by
`createdAt`; ordering is not part of any claim). -/
def getAllRequests (db : DB) (q : Query) (actor : Actor) : List Request :=
  db.requests.filter (fun r => roleFilter actor r && queryFilter q r)

/-- Outcome of GET `/api/requests/:id`. -/
inductive GetResult where
  | notFound
  | forbidden
  | ok (r : Request)
deriving DecidableEq, Repr

/-- `getRequestById`: 404 if absent; 403 for a `User` actor who is not the
creator. -/
def getRequestById (db : DB) (rid : Nat) (actor : Actor) : GetResult :=
  match findRequest db rid with
  | none => GetResult.notFound
  | some r =>
    if actor.role = Role.User ∧ ¬ r.createdBy = actor.id then GetResult.forbidden
    else GetResult.ok r

/-- Request body of PUT `/api/requests/:id`; a `some` field is a key
present in `req.body`, copied onto the document by
`Object.assign(request, req.body)`. -/
structure UpdateBody where
  subject : Option String
  equipment : Option Nat
  equipmentCategory : Option String
  maintenanceTeam : Option Nat
  requestType : Option RequestType
  stage : Option Stage
  priority : Option Priority
  scheduledDate : Option Nat
  assignedTechnician : Option Nat
  durationHours : Option Nat
  description : Option String
  resolutionNotes : Option String
  createdBy : Option Nat
deriving DecidableEq, Repr

/-- The body with no keys present. -/
def emptyBody : UpdateBody :=
  { subject := none, equipment := none, equipmentCategory := none,
    maintenanceTeam := none, requestType := none, stage := none,
    priority := none, scheduledDate := none, assignedTechnician := none,
    durationHours := none, description := none, resolutionNotes := none,
    createdBy := none }

/-- `Object.assign(request, req.body)`: every key present in the body
overwrites the corresponding document field; absent keys leave the field
alone. -/
def applyBody (r : Request) (b : UpdateBody) : Request :=
  { r with
    subject := b.subject.getD r.subject
    equipment := b.equipment.getD r.equipment
    equipmentCategory := b.equipmentCategory.getD r.equipmentCategory
    maintenanceTeam := match b.maintenanceTeam with
      | some v => some v
      | none => r.maintenanceTeam
    requestType := b.requestType.getD r.requestType
    stage := b.stage.getD r.stage
    priority := b.priority.getD r.priority
    scheduledDate := match b.scheduledDate with
      | some v => some v
      | none => r.scheduledDate
    assignedTechnician := match b.assignedTechnician with
      | some v => some v
      | none => r.assignedTechnician
    durationHours := b.durationHours.getD r.durationHours
    description := b.description.getD r.description
    resolutionNotes := b.resolutionNotes.getD r.resolutionNotes
    createdBy := b.createdBy.getD r.createdBy }

/-- `updateRequest` (PUT `/api/requests/:id`): 404 if absent, 403 unless
Admin/Manager/assigned technician, then `Object.assign` + `save` (a
`save`-time validation failure lands in the `catch`, 500, with nothing
written). It never touches the `Equipment` collection and never consults
`isValidTransition`. -/
def updateRequest (db : DB) (rid : Nat) (body : UpdateBody) (actor : Actor) : ApiResult :=
  match findRequest db rid with
  | none => ApiResult.notFound db
  | some request =>
    if canUpdate request actor then
      let updated := applyBody request body
      if validRequest updated then ApiResult.ok (saveRequest db updated) updated
      else ApiResult.serverError db
    else ApiResult.forbidden db

/-- `assignTechnician` (PATCH `/api/requests/:id/assign`); the route is
guarded by `permissions.adminAndManager`, modelled here as the leading
role check. `technicianId = none` models a missing/falsy body field. -/
def assignTechnician (db : DB) (rid : Nat) (technicianId : Option Nat)
    (actor : Actor) : ApiResult :=
  if actor.role = Role.Admin ∨ actor.role = Role.Manager then
    match technicianId with
    | none => ApiResult.badRequest db
    | some tid =>
      match findRequest db rid with
      | none => ApiResult.notFound db
      | some request =>
        let updated := { request with assignedTechnician := some tid }
        ApiResult.ok (saveRequest db updated) updated
  else ApiResult.forbidden db

/-! ## Backend equipment controller (`getEquipmentAutoFill`) -/

/-- Outcome of GET `/api/equipment/:id/auto-fill`. -/
inductive AutoFillResult where
  | notFound
  | inactive
  | ok (equipmentCategory : String) (maintenanceTeam : Nat) (defaultTechnician : Nat)
deriving DecidableEq, Repr

/-- `getEquipmentAutoFill`: 404 if the equipment is absent, 400 (the
scrapped/inactive message) if `isActive` is false, else the auto-fill
bundle. -/
def getEquipmentAutoFill (db : DB) (eid : Nat) : AutoFillResult :=
  match findEquipment db eid with
  | none => AutoFillResult.notFound
  | some e =>
    if e.isActive then AutoFillResult.ok e.category e.maintenanceTeam e.defaultTechnician
    else AutoFillResult.inactive

/-! ## Frontend Kanban drag handler (`handleDragEnd`) -/

/-- Action the Kanban `handleDragEnd` takes once the drop target is known:
drop ignored, an error toast naming both stages, the Scrap confirmation
dialog, or a PATCH to the stage endpoint. -/
inductive DragAction where
  | ignore
  | invalidToast (fromStage toStage : Stage)
  | scrapDialog (rid : Nat) (fromStage : Stage)
  | callApi (rid : Nat) (newStage : Stage)
deriving DecidableEq, Repr

/-- `handleDragEnd`: same stage is silently ignored; an invalid transition
shows `Cannot move from <old> to <new>` and makes no API call; a valid
move to `Scrap` opens the confirmation dialog; any other valid move
PATCHes the new stage. -/
def handleDragEnd (requests : List Request) (activeId : Nat)
    (overId : Option Stage) : DragAction :=
  match overId with
  | none => DragAction.ignore
  | some newStage =>
    match requests.find? (fun r => r.id == activeId) with
    | none => DragAction.ignore
    | some request =>
      if request.stage = newStage then DragAction.ignore
      else if isValidTransition request.stage newStage then
        if newStage = Stage.Scrap then DragAction.scrapDialog activeId request.stage
        else DragAction.callApi activeId newStage
      else DragAction.invalidToast request.stage newStage

/-! ## Frontend request form validation (`validateForm`) -/

/-- The request form's state; empty string is the unfilled (falsy)
value for every control. -/
structure FormData where
  subject : String
  equipment : String
  requestType : String
  priority : String
  scheduledDate : String
  description : String
deriving DecidableEq, Repr

/-- `validateForm` of the request form: collects the names of every
violated field (not only the first); `scheduledDate` is violated exactly
when the request type is `Preventive` and no date was picked. -/
def validateForm (f : FormData) : List String :=
  (if trimString f.subject = "" then ["subject"] else []) ++
  (if f.equipment = "" then ["equipment"] else []) ++
  (if f.requestType = "" then ["requestType"] else []) ++
  (if f.priority = "" then ["priority"] else []) ++
  (if f.requestType = "Preventive" ∧ f.scheduledDate = "" then ["scheduledDate"] else []) ++
  (if trimString f.description = "" then ["description"] else [])

/-- `handleSubmit` submits to the API only when `validateForm` found no
errors. -/
def formSubmits (f : FormData) : Bool :=
  (validateForm f).isEmpty

/-! ## Result projections (used to state concrete observations) -/

/-- The database state a handler left behind. -/
def dbAfter : ApiResult → DB
  | ApiResult.badRequest db => db
  | ApiResult.notFound db => db
  | ApiResult.forbidden db => db
  | ApiResult.serverError db => db
  | ApiResult.ok db _ => db

/-- Did the handler answer 2xx? -/
def isOk : ApiResult → Bool
  | ApiResult.ok _ _ => true
  | _ => false

/-- The stage stored for request `rid`. -/
def stageIn (db : DB) (rid : Nat) : Option Stage :=
  (findRequest db rid).map (fun r => r.stage)

/-- The `equipmentCategory` snapshot stored for request `rid`. -/
def categoryIn (db : DB) (rid : Nat) : Option String :=
  (findRequest db rid).map (fun r => r.equipmentCategory)

/-- The `isActive` flag stored for equipment `eid`. -/
def activeIn (db : DB) (eid : Nat) : Option Bool :=
  (findEquipment db eid).map (fun e => e.isActive)

/-! ## Concrete fixtures (Scenario-style data used by witnesses and
counterexamples) -/

/-- An active pump owned by team 10 with default technician 7. -/
def pumpEquipment : Equipment :=
  { id := 1, equipmentName := "Hydraulic Pump", category := "Mechanical",
    maintenanceTeam := 10, defaultTechnician := 7, isActive := true }

/-- A corrective request against the pump, created by user 3, assigned to
technician 7, at stage `New`. -/
def pumpRequest : Request :=
  { id := 100, subject := "Pump leaking", equipment := 1,
    equipmentCategory := "Mechanical", maintenanceTeam := some 10,
    requestType := RequestType.Corrective, stage := Stage.New,
    priority := Priority.Medium, scheduledDate := none,
    assignedTechnician := some 7, durationHours := 0,
    description := "Oil leak at the base", resolutionNotes := "",
    createdBy := 3 }

/-- Base state: the active pump and its `New` request. -/
def demoDB : DB :=
  { equipments := [pumpEquipment], requests := [pumpRequest] }

/-- Same state with the request already `Repaired`. -/
def repairedDB : DB :=
  { equipments := [pumpEquipment],
    requests := [{ pumpRequest with stage := Stage.Repaired }] }

/-- A state where the request already reads `Scrap` while the equipment is
still active (reachable: the generic PUT writes `stage` without the
cascade). -/
def scrapStageDB : DB :=
  { equipments := [pumpEquipment],
    requests := [{ pumpRequest with stage := Stage.Scrap }] }

/-- A state whose only equipment is inactive (scrapped). -/
def inactiveDB : DB :=
  { equipments := [{ pumpEquipment with isActive := false }],
    requests := [] }

/-- An administrator. -/
def adminActor : Actor := { id := 2, role := Role.Admin, team := none }

/-- Technician 7, member of team 10. -/
def techActor : Actor := { id := 7, role := Role.Technician, team := some 10 }

/-- The end user who created the pump request. -/
def creatorUser : Actor := { id := 3, role := Role.User, team := none }

/-- A different end user. -/
def otherUser : Actor := { id := 4, role := Role.User, team := none }

/-- A `User`-role actor whose id equals the request's assigned
technician. -/
def assignedUser : Actor := { id := 7, role := Role.User, team := none }

/-- A well-formed creation body for the pump. -/
def correctiveBody : CreateBody :=
  { subject := "Belt squeals", equipment := 1,
    requestType := RequestType.Corrective, priority := some Priority.High,
    stage := none, scheduledDate := none, assignedTechnician := none,
    description := some "High-pitched noise" }

/-- A `Preventive` creation body with no scheduled date. -/
def preventiveBody : CreateBody :=
  { subject := "Quarterly inspection", equipment := 1,
    requestType := RequestType.Preventive, priority := none,
    stage := none, scheduledDate := none, assignedTechnician := none,
    description := some "Routine check" }

/-- A PUT body that rewrites the denormalized category snapshot. -/
def categoryBody : UpdateBody :=
  { emptyBody with equipmentCategory := some "Electrical" }

/-- A PUT body that sets `stage` to `Scrap`. -/
def scrapStageBody : UpdateBody :=
  { emptyBody with stage := some Stage.Scrap }

/-- A PUT body touching only the subject. -/
def subjectBody : UpdateBody :=
  { emptyBody with subject := some "Pump still leaking" }

/-- The form state for a `Preventive` request with no date picked. -/
def preventiveForm : FormData :=
  { subject := "Monthly check", equipment := "1",
    requestType := "Preventive", priority := "Medium",
    scheduledDate := "", description := "Lubricate" }

/-! ## Helper lemmas -/

theorem saveRequest_equipments (db : DB) (r : Request) :
    (saveRequest db r).equipments = db.equipments := rfl

theorem isActive_of_mem_deactivate {db : DB} {eid : Nat} {e : Equipment}
    (he : e ∈ (deactivateEquipment db eid).equipments) (hid : e.id = eid) :
    e.isActive = false := by
  simp only [deactivateEquipment, List.mem_map] at he
  obtain ⟨a, _, ha⟩ := he
  by_cases h : a.id = eid
  · rw [← ha]
    simp [h]
  · exfalso
    rw [← ha] at hid
    simp [h] at hid

theorem updateRequestStage_ok_inv {db db2 : DB} {rid : Nat} {s : Stage} {a : Actor}
    {d : Bool} {r r2 : Request} (hfind : findRequest db rid = some r)
    (hok : updateRequestStage db rid (some s) a d = ApiResult.ok db2 r2) :
    canUpdate r a = true ∧ r2 = { r with stage := s } ∧
      ((s = Stage.Scrap ∧ d = false ∧
          db2 = saveRequest (deactivateEquipment db r.equipment) r2) ∨
        (s ≠ Stage.Scrap ∧ db2 = saveRequest db r2)) := by
  simp only [updateRequestStage, hfind] at hok
  cases hc : canUpdate r a
  · simp [hc] at hok
  · simp only [hc, if_true] at hok
    by_cases hs : s = Stage.Scrap
    · subst hs
      cases d
      · simp only [if_true, Bool.false_eq_true, if_false, ApiResult.ok.injEq] at hok
        exact ⟨rfl, hok.2.symm, Or.inl ⟨rfl, rfl, hok.2 ▸ hok.1.symm⟩⟩
      · simp at hok
    · simp only [hs, if_false, ApiResult.ok.injEq] at hok
      exact ⟨rfl, hok.2.symm, Or.inr ⟨hs, hok.2 ▸ hok.1.symm⟩⟩

theorem updateRequest_ok_inv {db db2 : DB} {rid : Nat} {b : UpdateBody} {a : Actor}
    {r r2 : Request} (hfind : findRequest db rid = some r)
    (hok : updateRequest db rid b a = ApiResult.ok db2 r2) :
    canUpdate r a = true ∧ r2 = applyBody r b ∧ db2 = saveRequest db r2 := by
  simp only [updateRequest, hfind] at hok
  cases hc : canUpdate r a
  · simp [hc] at hok
  · simp only [hc, if_true] at hok
    cases hv : validRequest (applyBody r b)
    · simp [hv] at hok
    · simp only [hv, if_true, ApiResult.ok.injEq] at hok
      exact ⟨rfl, hok.2.symm, hok.2 ▸ hok.1.symm⟩

theorem assignTechnician_ok_inv {db db2 : DB} {rid tid : Nat} {a : Actor}
    {r r2 : Request} (hfind : findRequest db rid = some r)
    (hok : assignTechnician db rid (some tid) a = ApiResult.ok db2 r2) :
    r2 = { r with assignedTechnician := some tid } ∧ db2 = saveRequest db r2 := by
  simp only [assignTechnician, hfind] at hok
  by_cases hc : a.role = Role.Admin ∨ a.role = Role.Manager
  · simp only [hc, if_true, ApiResult.ok.injEq] at hok
    exact ⟨hok.2.symm, hok.2 ▸ hok.1.symm⟩
  · simp [hc] at hok

theorem createRequest_ok_inv {db db2 : DB} {body : CreateBody} {a : Actor}
    {nid : Nat} {e : Equipment} {r2 : Request}
    (hfe : findEquipment db body.equipment = some e)
    (hok : createRequest db body a nid = ApiResult.ok db2 r2) :
    e.isActive = true ∧ r2 = builtRequest body e a nid ∧
      db2 = { db with requests := db.requests ++ [r2] } := by
  simp only [createRequest, hfe] at hok
  cases hact : e.isActive
  · simp [hact] at hok
  · simp only [hact, if_true] at hok
    cases hv : validRequest (builtRequest body e a nid)
    · simp [hv] at hok
    · simp only [hv, if_true, ApiResult.ok.injEq] at hok
      exact ⟨rfl, hok.2.symm, hok.2 ▸ hok.1.symm⟩

theorem saveRequest_self {db : DB} {rid : Nat} {r : Request}
    (hfind : findRequest db rid = some r)
    (hnodup : (db.requests.map Request.id).Nodup) :
    saveRequest db r = db := by
  have hr : r ∈ db.requests := List.mem_of_find?_eq_some hfind
  have hinj := List.inj_on_of_nodup_map hnodup
  have hmap : db.requests.map (fun x => if x.id == r.id then r else x) = db.requests := by
    rw [List.map_congr_left (g := id) ?_]
    · exact List.map_id db.requests
    · intro x hx
      by_cases h : x.id = r.id
      · have hxr : x = r := hinj hx hr h
        simp [hxr]
      · simp [h]
  show ({ equipments := db.equipments,
          requests := db.requests.map (fun x => if x.id == r.id then r else x) } : DB) = db
  rw [hmap]

/-! ## Claims -/

/-- C3: the pure stage-transition validator permits exactly the pairs
New→InProgress, InProgress→Repaired, and x→Scrap for every non-terminal x
(New, InProgress, Repaired); every other pair — in particular everything
out of Scrap, everything out of Repaired except Scrap, and the backward
pairs Repaired→New, InProgress→New, New→Repaired — is rejected. -/
theorem stage_validator_exact_graph :
    ∀ s t : Stage, isValidTransition s t = true ↔
      ((s = Stage.New ∧ t = Stage.InProgress) ∨
        (s = Stage.InProgress ∧ t = Stage.Repaired) ∨
        (s ≠ Stage.Scrap ∧ t = Stage.Scrap)) := by
  decide

/-- C1: when `updateRequestStage` to `Scrap` answers 200, every equipment
document carrying the updated request's equipment id reads
`isActive = false` in the resulting state; moreover the deactivation write
precedes the stage write, so when the deactivation call raises
(`deactivateFails = true`) the handler never answers 200 and leaves the
database — in particular the request's stage — exactly as it was. -/
theorem scrap_stage_deactivates_equipment (db db2 db3 : DB) (rid : Nat) (actor : Actor)
    (deact : Bool) (r r2 : Request) (e : Equipment)
    (hfind : findRequest db rid = some r)
    (hok : updateRequestStage db rid (some Stage.Scrap) actor deact = ApiResult.ok db2 r2)
    (he : e ∈ db2.equipments) (hid : e.id = r2.equipment)
    (hfail : updateRequestStage db rid (some Stage.Scrap) actor true = ApiResult.serverError db3) :
    e.isActive = false ∧ deact = false ∧ db3 = db := by
  obtain ⟨hc, hr2, hcase⟩ := updateRequestStage_ok_inv hfind hok
  rcases hcase with ⟨_, hd, hdb2⟩ | ⟨hne, _⟩
  · refine ⟨?_, hd, ?_⟩
    · rw [hdb2, saveRequest_equipments] at he
      have hide : e.id = r.equipment := by rw [hid, hr2]
      exact isActive_of_mem_deactivate he hide
    · simp only [updateRequestStage, hfind] at hfail
      simp [hc] at hfail
      exact hfail.symm
  · exact absurd rfl hne

/-- C1 witness: scrapping the pump request as Admin deactivates the pump,
and the same call with a failing deactivation write returns 500 on the
unchanged database. -/
theorem scrap_stage_deactivates_equipment_witness :
    ({ pumpEquipment with isActive := false } : Equipment).isActive = false ∧
      false = false ∧ demoDB = demoDB :=
  scrap_stage_deactivates_equipment demoDB
    (saveRequest (deactivateEquipment demoDB 1) { pumpRequest with stage := Stage.Scrap })
    demoDB 100 adminActor false pumpRequest { pumpRequest with stage := Stage.Scrap }
    { pumpEquipment with isActive := false }
    (by decide) (by decide) (by decide) (by decide) (by decide)

/-- C2 counterexample: Repaired→New is not a valid transition, yet the
stage endpoint, invoked by an Admin on the repaired pump request, answers
200 and stores stage `New` — it raises no InvalidTransition error and does
not leave the stage unchanged. The transition check lives only in the
Kanban drag handler. -/
theorem invalid_transition_counterexample :
    isValidTransition Stage.Repaired Stage.New = false ∧
      isOk (updateRequestStage repairedDB 100 (some Stage.New) adminActor false) = true ∧
      stageIn (dbAfter (updateRequestStage repairedDB 100 (some Stage.New) adminActor false))
          100 = some Stage.New := by
  decide

/-- C2 amended: the backend stage endpoint performs no transition
validation; it is the frontend Kanban drag handler that, for a drop whose
transition `isValidTransition` rejects (and which is not a same-stage
drop), shows the error toast naming both the current and the requested
stage and issues no API call, leaving the stored stage unchanged. -/
theorem invalid_transition_rejected_in_kanban (rs : List Request) (rid : Nat) (r : Request)
    (t : Stage) (hfind : rs.find? (fun x => x.id == rid) = some r)
    (hne : r.stage ≠ t) (hinv : isValidTransition r.stage t = false) :
    handleDragEnd rs rid (some t) = DragAction.invalidToast r.stage t := by
  simp [handleDragEnd, hfind, hne, hinv]

/-- C2 amended witness: dragging the repaired pump request back to `New`
on the Kanban board produces exactly the error toast naming Repaired and
New. -/
theorem invalid_transition_rejected_in_kanban_witness :
    handleDragEnd [{ pumpRequest with stage := Stage.Repaired }] 100 (some Stage.New) =
      DragAction.invalidToast Stage.Repaired Stage.New :=
  invalid_transition_rejected_in_kanban [{ pumpRequest with stage := Stage.Repaired }] 100
    { pumpRequest with stage := Stage.Repaired } Stage.New
    (by decide) (by decide) (by decide)

/-- C4: against equipment that exists but is inactive, `createRequest`
answers the inactive-equipment 400 with no request inserted (the carried
state is the input state), and `getEquipmentAutoFill` answers the
inactive-equipment 400; for an absent equipment id, `getEquipmentAutoFill`
answers 404. -/
theorem inactive_equipment_rejected (db : DB) (eid nid : Nat) (e : Equipment)
    (body : CreateBody) (actor : Actor)
    (hfind : findEquipment db eid = some e) (hin : e.isActive = false)
    (hbe : body.equipment = eid) :
    createRequest db body actor nid = ApiResult.badRequest db ∧
      getEquipmentAutoFill db eid = AutoFillResult.inactive ∧
      (∀ db0 eid0, findEquipment db0 eid0 = none →
        getEquipmentAutoFill db0 eid0 = AutoFillResult.notFound) := by
  refine ⟨?_, ?_, ?_⟩
  · rw [createRequest, hbe, hfind]
    simp [hin]
  · rw [getEquipmentAutoFill, hfind]
    simp [hin]
  · intro db0 eid0 h0
    rw [getEquipmentAutoFill, h0]

/-- C4 witness: with the pump scrapped, creating a request against it is
refused with the state unchanged, its auto-fill is refused, and auto-fill
for an unknown id is a 404. -/
theorem inactive_equipment_rejected_witness :
    createRequest inactiveDB correctiveBody creatorUser 300 = ApiResult.badRequest inactiveDB ∧
      getEquipmentAutoFill inactiveDB 1 = AutoFillResult.inactive ∧
      getEquipmentAutoFill inactiveDB 99 = AutoFillResult.notFound := by
  have h := inactive_equipment_rejected inactiveDB 1 300
    { pumpEquipment with isActive := false } correctiveBody creatorUser
    (by decide) (by decide) (by decide)
  exact ⟨h.1, h.2.1, h.2.2 inactiveDB 99 (by decide)⟩

/-- C5 counterexample: an actor with role `User` whose id matches the pump
request's `assignedTechnician` invokes the stage endpoint and gets 200 —
the role gate accepts the assigned technician whatever their role, so a
User-role actor does not always fail Forbidden. -/
theorem user_role_forbidden_counterexample :
    assignedUser.role = Role.User ∧
      (findRequest demoDB 100).map (fun r => r.assignedTechnician) =
        some (some assignedUser.id) ∧
      isOk (updateRequestStage demoDB 100 (some Stage.InProgress) assignedUser false) =
        true := by
  decide

/-- C5 amended: a `User`-role actor who is not recorded as the request's
assigned technician always fails Forbidden on the stage endpoint,
whatever stage is requested and whether or not the transition would be
valid; the database is left unchanged. (A User-role actor who is the
assigned technician passes the gate.) -/
theorem user_role_forbidden_unless_assigned (db : DB) (rid : Nat) (s : Stage) (a : Actor)
    (r : Request) (deact : Bool) (hrole : a.role = Role.User)
    (hfind : findRequest db rid = some r)
    (hna : r.assignedTechnician ≠ some a.id) :
    updateRequestStage db rid (some s) a deact = ApiResult.forbidden db := by
  have hc : canUpdate r a = false := by
    simp [canUpdate, hrole, hna]
  simp [updateRequestStage, hfind, hc]

/-- C5 amended witness: a different User-role actor (id 4, not assigned)
is refused on the pump request. -/
theorem user_role_forbidden_unless_assigned_witness :
    updateRequestStage demoDB 100 (some Stage.InProgress) otherUser false =
      ApiResult.forbidden demoDB :=
  user_role_forbidden_unless_assigned demoDB 100 Stage.InProgress otherUser
    pumpRequest false (by decide) (by decide) (by decide)

/-- C6: with no query-string filters, the list endpoint returns every
request to an Admin or Manager; to a Technician exactly those assigned to
them or belonging to their team; to a User exactly those they created;
and the single-record fetch answers Forbidden to a User-role actor who
did not create the request. -/
theorem role_based_visibility (db : DB) (a : Actor) (r : Request) (rid : Nat)
    (req : Request) :
    ((a.role = Role.Admin ∨ a.role = Role.Manager) →
      (r ∈ getAllRequests db emptyQuery a ↔ r ∈ db.requests)) ∧
    (a.role = Role.Technician →
      (r ∈ getAllRequests db emptyQuery a ↔
        r ∈ db.requests ∧
          (r.assignedTechnician = some a.id ∨ r.maintenanceTeam = a.team))) ∧
    (a.role = Role.User →
      (r ∈ getAllRequests db emptyQuery a ↔
        r ∈ db.requests ∧ r.createdBy = a.id)) ∧
    (a.role = Role.User → findRequest db rid = some req → req.createdBy ≠ a.id →
      getRequestById db rid a = GetResult.forbidden) := by
  refine ⟨?_, ?_, ?_, ?_⟩
  · rintro (h | h) <;>
      simp [getAllRequests, List.mem_filter, roleFilter, h, queryFilter, emptyQuery]
  · intro h
    simp [getAllRequests, List.mem_filter, roleFilter, h, queryFilter, emptyQuery]
  · intro h
    simp [getAllRequests, List.mem_filter, roleFilter, h, queryFilter, emptyQuery]
  · intro hrole hfind hne
    simp [getRequestById, hfind, hrole, hne]

/-- C6 witness: on the demo state, the Admin sees the pump request, the
assigned technician's visibility matches the assigned-or-team predicate,
a foreign User's visibility matches the created-by predicate, and that
foreign User is refused the single-record fetch. -/
theorem role_based_visibility_witness :
    (pumpRequest ∈ getAllRequests demoDB emptyQuery adminActor ↔
      pumpRequest ∈ demoDB.requests) ∧
    (pumpRequest ∈ getAllRequests demoDB emptyQuery techActor ↔
      pumpRequest ∈ demoDB.requests ∧
        (pumpRequest.assignedTechnician = some techActor.id ∨
          pumpRequest.maintenanceTeam = techActor.team)) ∧
    (pumpRequest ∈ getAllRequests demoDB emptyQuery otherUser ↔
      pumpRequest ∈ demoDB.requests ∧ pumpRequest.createdBy = otherUser.id) ∧
    getRequestById demoDB 100 otherUser = GetResult.forbidden :=
  ⟨(role_based_visibility demoDB adminActor pumpRequest 100 pumpRequest).1 (Or.inl rfl),
    (role_based_visibility demoDB techActor pumpRequest 100 pumpRequest).2.1 rfl,
    (role_based_visibility demoDB otherUser pumpRequest 100 pumpRequest).2.2.1 rfl,
    (role_based_visibility demoDB otherUser pumpRequest 100 pumpRequest).2.2.2 rfl
      (by decide) (by decide)⟩

/-- C7 counterexample: the generic PUT with a body carrying
`equipmentCategory` rewrites the denormalized snapshot — the stored
category of the pump request changes from `Mechanical` to `Electrical`,
so the snapshot fields are not immutable after creation. -/
theorem snapshot_immutable_counterexample :
    categoryIn demoDB 100 = some "Mechanical" ∧
      isOk (updateRequest demoDB 100 categoryBody adminActor) = true ∧
      categoryIn (dbAfter (updateRequest demoDB 100 categoryBody adminActor)) 100 =
        some "Electrical" := by
  decide

/-- C7 amended: `equipmentCategory`, `maintenanceTeam` and `createdBy` are
set at creation from the selected equipment and the creating actor (any
body-supplied values for them are overridden), and the stage endpoint and
the assign endpoint never change them; the generic PUT, however, copies
any body-supplied value onto them, so they survive a PUT only when the
body omits them (there is no separate resolution endpoint — resolution
fields also go through the generic PUT). -/
theorem snapshot_fields_station (db dbA dbB dbC dbD : DB) (rid tid nid : Nat)
    (aA aB aC aD : Actor) (r rA rB rC rD : Request) (s : Stage) (deact : Bool)
    (body : CreateBody) (e : Equipment) (ub : UpdateBody)
    (hfind : findRequest db rid = some r)
    (hA : updateRequestStage db rid (some s) aA deact = ApiResult.ok dbA rA)
    (hB : assignTechnician db rid (some tid) aB = ApiResult.ok dbB rB)
    (hC : updateRequest db rid ub aC = ApiResult.ok dbC rC)
    (hCat : ub.equipmentCategory = none) (hTeam : ub.maintenanceTeam = none)
    (hCreator : ub.createdBy = none)
    (hfe : findEquipment db body.equipment = some e)
    (hD : createRequest db body aD nid = ApiResult.ok dbD rD) :
    (rA.equipmentCategory = r.equipmentCategory ∧ rA.maintenanceTeam = r.maintenanceTeam ∧
      rA.createdBy = r.createdBy) ∧
    (rB.equipmentCategory = r.equipmentCategory ∧ rB.maintenanceTeam = r.maintenanceTeam ∧
      rB.createdBy = r.createdBy) ∧
    (rC.equipmentCategory = r.equipmentCategory ∧ rC.maintenanceTeam = r.maintenanceTeam ∧
      rC.createdBy = r.createdBy) ∧
    (rD.equipmentCategory = e.category ∧ rD.maintenanceTeam = some e.maintenanceTeam ∧
      rD.createdBy = aD.id) := by
  obtain ⟨-, hrA, -⟩ := updateRequestStage_ok_inv hfind hA
  obtain ⟨hrB, -⟩ := assignTechnician_ok_inv hfind hB
  obtain ⟨-, hrC, -⟩ := updateRequest_ok_inv hfind hC
  obtain ⟨-, hrD, -⟩ := createRequest_ok_inv hfe hD
  refine ⟨⟨?_, ?_, ?_⟩, ⟨?_, ?_, ?_⟩, ⟨?_, ?_, ?_⟩, ⟨?_, ?_, ?_⟩⟩ <;>
    simp [hrA, hrB, hrC, hrD, applyBody, builtRequest, hCat, hTeam, hCreator]

/-- C7 amended witness: on the demo state, an Admin stage change, a
technician assignment, a subject-only PUT, and a fresh creation all leave
the three snapshot fields as the amended claim states. -/
theorem snapshot_fields_station_witness :
    ((({ pumpRequest with stage := Stage.InProgress } : Request).equipmentCategory =
        pumpRequest.equipmentCategory ∧
      ({ pumpRequest with stage := Stage.InProgress } : Request).maintenanceTeam =
        pumpRequest.maintenanceTeam ∧
      ({ pumpRequest with stage := Stage.InProgress } : Request).createdBy =
        pumpRequest.createdBy) ∧
    (({ pumpRequest with assignedTechnician := some 9 } : Request).equipmentCategory =
        pumpRequest.equipmentCategory ∧
      ({ pumpRequest with assignedTechnician := some 9 } : Request).maintenanceTeam =
        pumpRequest.maintenanceTeam ∧
      ({ pumpRequest with assignedTechnician := some 9 } : Request).createdBy =
        pumpRequest.createdBy) ∧
    ((applyBody pumpRequest subjectBody).equipmentCategory = pumpRequest.equipmentCategory ∧
      (applyBody pumpRequest subjectBody).maintenanceTeam = pumpRequest.maintenanceTeam ∧
      (applyBody pumpRequest subjectBody).createdBy = pumpRequest.createdBy) ∧
    ((builtRequest correctiveBody pumpEquipment creatorUser 300).equipmentCategory =
        pumpEquipment.category ∧
      (builtRequest correctiveBody pumpEquipment creatorUser 300).maintenanceTeam =
        some pumpEquipment.maintenanceTeam ∧
      (builtRequest correctiveBody pumpEquipment creatorUser 300).createdBy =
        creatorUser.id)) :=
  snapshot_fields_station demoDB
    (saveRequest demoDB { pumpRequest with stage := Stage.InProgress })
    (saveRequest demoDB { pumpRequest with assignedTechnician := some 9 })
    (saveRequest demoDB (applyBody pumpRequest subjectBody))
    { demoDB with
      requests := demoDB.requests ++ [builtRequest correctiveBody pumpEquipment creatorUser 300] }
    100 9 300 adminActor adminActor adminActor creatorUser pumpRequest
    { pumpRequest with stage := Stage.InProgress }
    { pumpRequest with assignedTechnician := some 9 }
    (applyBody pumpRequest subjectBody)
    (builtRequest correctiveBody pumpEquipment creatorUser 300)
    Stage.InProgress false correctiveBody pumpEquipment subjectBody
    (by decide) (by decide) (by decide) (by decide) (by decide) (by decide) (by decide)
    (by decide) (by decide)

/-- C8 counterexample: a `Preventive` body with no `scheduledDate` is
accepted by `createRequest` — it answers 201 and inserts the request
(the request count grows by one), instead of failing with a validation
error. Neither the handler nor the schema requires a date for preventive
requests; only the frontend form checks it. -/
theorem preventive_requires_date_counterexample :
    preventiveBody.requestType = RequestType.Preventive ∧
      preventiveBody.scheduledDate = none ∧
      isOk (createRequest demoDB preventiveBody creatorUser 300) = true ∧
      (dbAfter (createRequest demoDB preventiveBody creatorUser 300)).requests.length =
        demoDB.requests.length + 1 := by
  decide

/-- C8 amended: the backend accepts a `Preventive` creation with a null
`scheduledDate` (the 201 path, given existing active equipment and a
non-empty subject); the Preventive-requires-date rule is enforced only by
the frontend form, whose `validateForm` lists `scheduledDate` among the
violated fields (collecting all of them, not just the first) and whose
submit handler then sends nothing to the API. -/
theorem preventive_date_checked_in_form (f : FormData) (db : DB) (body : CreateBody)
    (a : Actor) (nid : Nat) (e : Equipment)
    (hp : f.requestType = "Preventive") (hd : f.scheduledDate = "")
    (hbp : body.requestType = RequestType.Preventive) (hbd : body.scheduledDate = none)
    (hfe : findEquipment db body.equipment = some e) (hact : e.isActive = true)
    (hsub : trimString body.subject ≠ "") :
    "scheduledDate" ∈ validateForm f ∧ formSubmits f = false ∧
      isOk (createRequest db body a nid) = true := by
  have hmem : "scheduledDate" ∈ validateForm f := by
    simp [validateForm, hp, hd]
  refine ⟨hmem, ?_, ?_⟩
  · have hne := List.ne_nil_of_mem hmem
    simp [formSubmits, List.isEmpty_iff, hne]
  · rw [createRequest, hfe]
    simp only [hact, if_true]
    have hv : validRequest (builtRequest body e a nid) = true := by
      simpa [validRequest, builtRequest] using hsub
    simp [hv, isOk]

/-- C8 amended witness: the preventive form with no date is blocked by the
form validation while the equivalent backend body is accepted. -/
theorem preventive_date_checked_in_form_witness :
    "scheduledDate" ∈ validateForm preventiveForm ∧
      formSubmits preventiveForm = false ∧
      isOk (createRequest demoDB preventiveBody creatorUser 300) = true :=
  preventive_date_checked_in_form preventiveForm demoDB preventiveBody creatorUser 300
    pumpEquipment (by decide) (by decide) (by decide) (by decide) (by decide) (by decide)
    (by decide)

/-- C9 counterexample: with the pump request already at `Scrap` while the
pump is still active (a state the generic PUT can produce), the same-stage
call `updateStage(r, Scrap)` answers 200 but is not side-effect free: it
re-runs the deactivation write and flips the equipment's `isActive` from
true to false. -/
theorem same_stage_noop_counterexample :
    stageIn scrapStageDB 100 = some Stage.Scrap ∧
      activeIn scrapStageDB 1 = some true ∧
      isOk (updateRequestStage scrapStageDB 100 (some Stage.Scrap) adminActor false) = true ∧
      activeIn (dbAfter (updateRequestStage scrapStageDB 100 (some Stage.Scrap) adminActor
        false)) 1 = some false := by
  decide

/-- C9 amended: for an authorized actor, a same-stage `updateStage` call
succeeds without error; when the current stage is not `Scrap` it is a
genuine no-op — the database (request ids assumed unique) is returned
unchanged, so no equipment mutation occurs — and the Kanban drag handler
ignores a same-stage drop without calling the API at all; when the current
stage is `Scrap`, however, the backend re-issues the equipment-deactivation
write before re-saving. -/
theorem same_stage_noop_unless_scrap (db : DB) (rid : Nat) (a : Actor) (r : Request)
    (hfind : findRequest db rid = some r) (hcan : canUpdate r a = true)
    (hns : r.stage ≠ Stage.Scrap)
    (hnodup : (db.requests.map Request.id).Nodup) :
    updateRequestStage db rid (some r.stage) a false = ApiResult.ok db r ∧
      handleDragEnd db.requests rid (some r.stage) = DragAction.ignore := by
  constructor
  · have hsave : saveRequest db r = db := saveRequest_self hfind hnodup
    simp only [updateRequestStage, hfind, hcan, if_true, hns, if_false]
    rw [show ({ r with stage := r.stage } : Request) = r from rfl, hsave]
  · have hfind2 : db.requests.find? (fun x => x.id == rid) = some r := hfind
    simp [handleDragEnd, hfind2]

/-- C9 amended witness: the technician repeating `In Progress` on their
in-progress pump request gets a 200 with the state unchanged, and the
Kanban ignores the same-stage drop. -/
theorem same_stage_noop_unless_scrap_witness :
    updateRequestStage
        { equipments := [pumpEquipment],
          requests := [{ pumpRequest with stage := Stage.InProgress }] }
        100 (some Stage.InProgress) techActor false =
      ApiResult.ok
        { equipments := [pumpEquipment],
          requests := [{ pumpRequest with stage := Stage.InProgress }] }
        { pumpRequest with stage := Stage.InProgress } ∧
      handleDragEnd [{ pumpRequest with stage := Stage.InProgress }] 100
        (some Stage.InProgress) = DragAction.ignore :=
  same_stage_noop_unless_scrap
    { equipments := [pumpEquipment],
      requests := [{ pumpRequest with stage := Stage.InProgress }] }
    100 techActor { pumpRequest with stage := Stage.InProgress }
    (by decide) (by decide) (by decide) (by decide)

/-- C10: whenever the generic PUT answers 200 it has not touched the
equipment collection — so a stage set to `Scrap` this way never
deactivates the linked equipment — and the stage supplied in the body is
stored verbatim, with no transition validation consulted (the conclusion
holds for every requested stage, valid or not). -/
theorem generic_update_no_cascade (db db2 : DB) (rid : Nat) (b : UpdateBody) (a : Actor)
    (r2 : Request) (t : Stage)
    (hok : updateRequest db rid b a = ApiResult.ok db2 r2)
    (hbs : b.stage = some t) :
    db2.equipments = db.equipments ∧ r2.stage = t := by
  rcases hfind : findRequest db rid with - | r
  · simp [updateRequest, hfind] at hok
  · obtain ⟨-, hr2, hdb2⟩ := updateRequest_ok_inv hfind hok
    constructor
    · rw [hdb2, saveRequest_equipments]
    · rw [hr2]
      simp [applyBody, hbs]

/-- C10 witness: a PUT that sets the pump request's stage to `Scrap`
(while the pump is active) succeeds, stores `Scrap`, and leaves the
equipment collection — hence the pump's `isActive` — untouched. -/
theorem generic_update_no_cascade_witness :
    (saveRequest demoDB (applyBody pumpRequest scrapStageBody)).equipments =
        demoDB.equipments ∧
      (applyBody pumpRequest scrapStageBody).stage = Stage.Scrap :=
  generic_update_no_cascade demoDB
    (saveRequest demoDB (applyBody pumpRequest scrapStageBody)) 100 scrapStageBody
    adminActor (applyBody pumpRequest scrapStageBody) Stage.Scrap
    (by decide) (by decide)

end GearGuard
